import Mathlib

set_option linter.unusedVariables false

/-!
Shallow embedding of the ai-software-estimator repository (FastAPI app under
`src/app`) and proofs about its claims.

Python floats are modelled as rationals (ℚ); Python `round(x, 2)` is modelled
as round-half-to-even at two decimals over ℚ.  Files on disk are modelled as
association lists from path to content; the in-memory job dictionary is an
association list from job id to `Job`.  Attributes that the Python code
creates dynamically via `setattr` (through `update_job`) are modelled as
`Option`-valued fields where `none` means the attribute is absent, so that
reading it raises `AttributeError`.
-/

/-- Round-half-to-even of a rational to an integer (the rounding mode of
Python `round`). -/
def roundHalfEven (x : ℚ) : ℤ :=
  let f : ℤ := ⌊x⌋
  let frac : ℚ := x - f
  if frac < 1/2 then f
  else if 1/2 < frac then f + 1
  else if f % 2 = 0 then f else f + 1

/-- Python `round(x, 2)` over ℚ. -/
def round2 (x : ℚ) : ℚ := (roundHalfEven (x * 100) : ℚ) / 100

-- ── app/models/estimate.py ──────────────────────────────────────────────────

structure DataEntity where
  name : String
  operations : List String
  mandays : ℚ
deriving DecidableEq

structure ApiIntegration where
  name : String
  direction : String
  complexity : String
  mandays : ℚ
deriving DecidableEq

structure Spike where
  description : String
  mandays : ℚ
deriving DecidableEq

structure CoreEstimate where
  data_entities : List DataEntity
  api_integrations : List ApiIntegration
  business_logic_mandays : ℚ
  scalability_tier : String
  scalability_multiplier : ℚ
  spikes : List Spike
  base_fcu_mandays : ℚ
  total_mandays : ℚ
  reasoning : String
deriving DecidableEq

structure PmOrchestration where
  active : Bool
  justification : String
  project_size : String
  base_fte_per_month : ℚ
  project_months : ℚ
  team_factor : ℚ
  total_mandays : ℚ
deriving DecidableEq

structure SolutionArchitecture where
  active : Bool
  justification : String
  external_systems_count : ℤ
  environment_complexity : String
  finops_months : ℚ
  total_mandays : ℚ
deriving DecidableEq

structure Cybersecurity where
  active : Bool
  justification : String
  sensitivity_tier : String
  security_gates_count : ℤ
  compliance_addons : List String
  total_mandays : ℚ
deriving DecidableEq

structure DigitalExperience where
  active : Bool
  justification : String
  user_journey_complexity : String
  accessibility_required : Bool
  total_mandays : ℚ
deriving DecidableEq

structure QualityAssurance where
  active : Bool
  justification : String
  verification_points : ℤ
  criticality_tier : ℤ
  performance_testing : Bool
  total_mandays : ℚ
deriving DecidableEq

structure DedicatedBusinessAnalysis where
  active : Bool
  justification : String
  fte_dedicated : ℚ
  duration_months : ℚ
  total_mandays : ℚ
deriving DecidableEq

/-- Default value of the `dedicated_business_analysis` field
(`_default_dedicated_ba` in app/models/estimate.py). -/
def _default_dedicated_ba : DedicatedBusinessAnalysis :=
  { active := false
  , justification := "Not applicable with this estimation model."
  , fte_dedicated := 0
  , duration_months := 0
  , total_mandays := 0 }

structure Satellites where
  pm_orchestration : PmOrchestration
  dedicated_business_analysis : DedicatedBusinessAnalysis := _default_dedicated_ba
  solution_architecture : SolutionArchitecture
  cybersecurity : Cybersecurity
  digital_experience : DigitalExperience
  quality_assurance : QualityAssurance
deriving DecidableEq

structure RoleEstimate where
  role : String
  mandays : ℚ
  description : String := ""
deriving DecidableEq

structure PhaseRole where
  role : String
  mandays : ℚ
deriving DecidableEq

structure PlanPhase where
  name : String
  start_week : ℤ
  end_week : ℤ
  roles : List PhaseRole
deriving DecidableEq

structure EstimateResult where
  project_name : String
  project_summary : String
  core : CoreEstimate
  satellites : Satellites
  overall_reasoning : String := ""
  roles : List RoleEstimate := []
  plan_phases : List PlanPhase := []
deriving DecidableEq

structure FinancialSummary where
  manday_cost : ℚ
  currency : String
  core_mandays : ℚ
  core_cost : ℚ
  pm_mandays : ℚ
  pm_cost : ℚ
  ba_mandays : ℚ := 0
  ba_cost : ℚ := 0
  sa_mandays : ℚ
  sa_cost : ℚ
  cyber_mandays : ℚ
  cyber_cost : ℚ
  dx_mandays : ℚ
  dx_cost : ℚ
  qa_mandays : ℚ
  qa_cost : ℚ
  grand_mandays : ℚ
  grand_cost : ℚ
deriving DecidableEq

-- ── app/core/estimator.py: _compute_financials ─────────────────────────────

/-- The inner helper `sat_md` of `_compute_financials`, applied to a
satellite's `active` flag and `total_mandays`. -/
def sat_md (active : Bool) (total_mandays : ℚ) : ℚ :=
  if active then total_mandays else 0

/-- Direct embedding of `_compute_financials` (app/core/estimator.py).
Note that it reads only five of the six satellites: `dedicated_business_analysis`
is never consulted, and `ba_mandays` / `ba_cost` keep their defaults. -/
def _compute_financials (result : EstimateResult) (manday_cost : ℚ)
    (currency : String) : FinancialSummary :=
  let s := result.satellites
  let core_md := result.core.total_mandays
  let pm_md := sat_md s.pm_orchestration.active s.pm_orchestration.total_mandays
  let sa_md := sat_md s.solution_architecture.active s.solution_architecture.total_mandays
  let cyber_md := sat_md s.cybersecurity.active s.cybersecurity.total_mandays
  let dx_md := sat_md s.digital_experience.active s.digital_experience.total_mandays
  let qa_md := sat_md s.quality_assurance.active s.quality_assurance.total_mandays
  let grand_md := core_md + pm_md + sa_md + cyber_md + dx_md + qa_md
  { manday_cost := manday_cost
  , currency := currency
  , core_mandays := core_md
  , core_cost := round2 (core_md * manday_cost)
  , pm_mandays := pm_md
  , pm_cost := round2 (pm_md * manday_cost)
  , sa_mandays := sa_md
  , sa_cost := round2 (sa_md * manday_cost)
  , cyber_mandays := cyber_md
  , cyber_cost := round2 (cyber_md * manday_cost)
  , dx_mandays := dx_md
  , dx_cost := round2 (dx_md * manday_cost)
  , qa_mandays := qa_md
  , qa_cost := round2 (qa_md * manday_cost)
  , grand_mandays := round2 grand_md
  , grand_cost := round2 (grand_md * manday_cost) }

-- ── tests/e2e/test_estimation_v2.py: grand_total_mandays ───────────────────

/-- Embedding of the repository's own test helper `grand_total_mandays`
(tests/e2e/test_estimation_v2.py): core plus every active satellite,
`dedicated_business_analysis` included. -/
def grand_total_mandays (result : EstimateResult) : ℚ :=
  let sat := result.satellites
  result.core.total_mandays
    + sat_md sat.pm_orchestration.active sat.pm_orchestration.total_mandays
    + sat_md sat.dedicated_business_analysis.active sat.dedicated_business_analysis.total_mandays
    + sat_md sat.solution_architecture.active sat.solution_architecture.total_mandays
    + sat_md sat.cybersecurity.active sat.cybersecurity.total_mandays
    + sat_md sat.digital_experience.active sat.digital_experience.total_mandays
    + sat_md sat.quality_assurance.active sat.quality_assurance.total_mandays

-- ── Concrete example data used by the counterexample/evaluation theorems ───

/-- A concrete core estimate with 20 total mandays. -/
def exCore : CoreEstimate :=
  { data_entities := [{ name := "Task", operations := ["Create", "Read"], mandays := 4 }]
  , api_integrations := [{ name := "Slack", direction := "outbound", complexity := "simple", mandays := 2 }]
  , business_logic_mandays := 8
  , scalability_tier := "low"
  , scalability_multiplier := 1
  , spikes := []
  , base_fcu_mandays := 20
  , total_mandays := 20
  , reasoning := "small CRUD app" }

/-- A concrete satellite group in which `dedicated_business_analysis` is
active with 10 mandays, `pm_orchestration` is active with 5 mandays, and the
other satellites are inactive. -/
def exSatellitesBA : Satellites :=
  { pm_orchestration :=
      { active := true, justification := "coordination", project_size := "small"
      , base_fte_per_month := 1/5, project_months := 3, team_factor := 1, total_mandays := 5 }
  , dedicated_business_analysis :=
      { active := true, justification := "stakeholder workshops"
      , fte_dedicated := 1/2, duration_months := 2, total_mandays := 10 }
  , solution_architecture :=
      { active := false, justification := "not needed", external_systems_count := 0
      , environment_complexity := "simple", finops_months := 0, total_mandays := 0 }
  , cybersecurity :=
      { active := false, justification := "not needed", sensitivity_tier := "basic"
      , security_gates_count := 0, compliance_addons := [], total_mandays := 0 }
  , digital_experience :=
      { active := false, justification := "not needed", user_journey_complexity := "simple"
      , accessibility_required := false, total_mandays := 0 }
  , quality_assurance :=
      { active := false, justification := "not needed", verification_points := 0
      , criticality_tier := 1, performance_testing := false, total_mandays := 0 } }

/-- A concrete estimate whose dedicated-BA satellite is active with 10 mandays. -/
def exEstimateBA : EstimateResult :=
  { project_name := "Task API"
  , project_summary := "Internal task management API"
  , core := exCore
  , satellites := exSatellitesBA }

/-- Python `str.strip()`: drop whitespace from both ends (modelled over the
character list so that it evaluates by kernel reduction). -/
def pyStrip (s : String) : String :=
  String.mk (((s.data.dropWhile Char.isWhitespace).reverse.dropWhile
    Char.isWhitespace).reverse)

-- ── app/core/claude_client.py: call_claude retry loop ──────────────────────

/-- One attempt of the LLM request in `call_claude` is abstracted as an
`Except`: `.ok` is a validated `EstimateResult`, `.error` carries `str(exc)`
of the exception raised by that attempt (network error, validation error, or
the `ValueError` for a missing tool-use block). -/
abbrev ClaudeOutcomes := ℕ → Except String EstimateResult

/-- The `for attempt in range(1, max_retries + 1)` loop of `call_claude`,
recursing over the list of remaining attempt numbers.  Returns the final
outcome together with the list of back-off sleeps (in seconds) performed
between attempts; after the loop the accumulated `last_error` becomes part of
the `RuntimeError` message. -/
def call_claude_go (outcomes : ClaudeOutcomes) (max_retries : ℕ)
    (last_error : Option String) : List ℕ → Except String EstimateResult × List ℕ
  | [] =>
    (.error ("Claude API failed after " ++ toString max_retries ++ " attempts: "
        ++ last_error.getD "None"), [])
  | attempt :: rest_attempts =>
    match outcomes attempt with
    | .ok r => (.ok r, [])
    | .error e =>
      let rest := call_claude_go outcomes max_retries (some e) rest_attempts
      if attempt < max_retries then (rest.1, 2 ^ attempt :: rest.2)
      else (rest.1, rest.2)

/-- Embedding of `call_claude` (app/core/claude_client.py): up to
`max_retries` attempts (`range(1, max_retries + 1)`), sleeping `2 ^ attempt`
seconds after each failed attempt except the last, then raising
`RuntimeError` after exhaustion. -/
def call_claude (outcomes : ClaudeOutcomes) (max_retries : ℕ := 3) :
    Except String EstimateResult × List ℕ :=
  call_claude_go outcomes max_retries none (List.range' 1 max_retries)

-- ── app/core/claude_client.py: chat refinement ─────────────────────────────

/-- Python `f"{x:.1f}"` over ℚ (round-half-to-even to one decimal). -/
def fmt1 (x : ℚ) : String :=
  let n : ℤ := roundHalfEven (x * 10)
  if n < 0 then "-" ++ toString ((-n) / 10) ++ "." ++ toString ((-n) % 10)
  else toString (n / 10) ++ "." ++ toString (n % 10)

/-- One `sat_pairs` entry of `_diff_estimates`: the lines contributed for a
single satellite, given its old/new `active` flag and `total_mandays`. -/
def diff_sat_lines (name : String) (oa : Bool) (omd : ℚ) (na : Bool) (nmd : ℚ) :
    List String :=
  if oa ≠ na then
    ["- **" ++ name ++ "**: " ++ (if na then "activated" else "deactivated")]
  else if oa ∧ na ∧ abs (omd - nmd) > 1/100 then
    ["- **" ++ name ++ "**: " ++ fmt1 omd ++ " → " ++ fmt1 nmd ++ " mandays"]
  else []

/-- Embedding of `_diff_estimates` (app/core/claude_client.py).  Note the
`sat_pairs` list covers only five satellites: `dedicated_business_analysis`
is not compared. -/
def _diff_estimates (old new : EstimateResult) : String :=
  let core_lines : List String :=
    if abs (old.core.total_mandays - new.core.total_mandays) > 1/100 then
      ["- **Core**: " ++ fmt1 old.core.total_mandays ++ " → "
        ++ fmt1 new.core.total_mandays ++ " mandays"]
    else []
  let lines := core_lines
    ++ diff_sat_lines "PM & Orchestration"
        old.satellites.pm_orchestration.active old.satellites.pm_orchestration.total_mandays
        new.satellites.pm_orchestration.active new.satellites.pm_orchestration.total_mandays
    ++ diff_sat_lines "Solution Architecture"
        old.satellites.solution_architecture.active old.satellites.solution_architecture.total_mandays
        new.satellites.solution_architecture.active new.satellites.solution_architecture.total_mandays
    ++ diff_sat_lines "Cybersecurity"
        old.satellites.cybersecurity.active old.satellites.cybersecurity.total_mandays
        new.satellites.cybersecurity.active new.satellites.cybersecurity.total_mandays
    ++ diff_sat_lines "Digital Experience"
        old.satellites.digital_experience.active old.satellites.digital_experience.total_mandays
        new.satellites.digital_experience.active new.satellites.digital_experience.total_mandays
    ++ diff_sat_lines "Quality Assurance"
        old.satellites.quality_assurance.active old.satellites.quality_assurance.total_mandays
        new.satellites.quality_assurance.active new.satellites.quality_assurance.total_mandays
  if lines.isEmpty then "I\x27ve applied the requested changes to the estimate."
  else "Done. Here\x27s what changed:\n\n" ++ String.intercalate "\n" lines

/-- A content block of the chat response: prose text, or a `tool_use` block
whose input either validates to an `EstimateResult` or fails validation. -/
inductive Block where
  | text (s : String)
  | tool_use (input : Except String EstimateResult)

/-- Embedding of the response-processing part of `chat_with_claude`
(app/core/claude_client.py): concatenate text blocks, keep the last
successfully validated `tool_use` input, and if a replacement came back with
no prose synthesize the local diff summary.  Returns
`(reply_text.strip(), updated_estimate_or_None)`. -/
def chat_with_claude (response : List Block) (current_estimate : EstimateResult) :
    String × Option EstimateResult :=
  let reply_text := String.join (response.filterMap fun b =>
    match b with
    | .text s => some s
    | .tool_use _ => none)
  let updated_estimate : Option EstimateResult := response.foldl
    (fun acc b =>
      match b with
      | .tool_use (.ok e) => some e
      | _ => acc) none
  match updated_estimate with
  | some e =>
    if pyStrip reply_text = "" then
      (pyStrip (_diff_estimates current_estimate e), some e)
    else (pyStrip reply_text, some e)
  | none => (pyStrip reply_text, none)

-- ── Generic association-list dictionaries (Python dict / files on disk) ────

/-- Set a key in an association list, replacing any previous binding. -/
def dict_set {β : Type} (l : List (String × β)) (k : String) (v : β) :
    List (String × β) :=
  l.filter (fun p => p.1 ≠ k) ++ [(k, v)]

/-- Remove a key from an association list (file deletion). -/
def dict_del {β : Type} (l : List (String × β)) (k : String) :
    List (String × β) :=
  l.filter (fun p => p.1 ≠ k)

-- ── app/core/github_client.py ──────────────────────────────────────────────

def SKIP_DIRS : List String :=
  ["node_modules", ".git", "dist", "build", "vendor", "__pycache__", ".next", "coverage"]

def MAX_FILE_LINES : ℕ := 200

def MAX_TOTAL_CHARS : ℕ := 80000

def PRIORITY_EXTENSIONS : List String :=
  [".md", ".rst", ".txt",
   ".py", ".ts", ".tsx", ".js", ".jsx", ".go", ".java", ".rb", ".rs", ".cs", ".cpp", ".c",
   ".json", ".yaml", ".yml", ".toml", ".env.example"]

/-- Python `url.rstrip("/")`. -/
def pyRstripSlash (s : String) : String :=
  String.mk ((s.data.reverse.dropWhile (· = '/')).reverse)

/-- Drop a literal prefix from a character list, or `none` when it is not a
prefix (the anchored part of a regex match). -/
def strip_prefix_chars : List Char → List Char → Option (List Char)
  | [], rest => some rest
  | _ :: _, [] => none
  | p :: ps, c :: cs => if c = p then strip_prefix_chars ps cs else none

/-- Python `s.split(sep)` for a one-character separator, over the character
list with a reversed accumulator. -/
def split_on_char_go (sep : Char) : List Char → List Char → List String
  | [], acc => [String.mk acc.reverse]
  | c :: rest, acc =>
    if c = sep then String.mk acc.reverse :: split_on_char_go sep rest []
    else split_on_char_go sep rest (c :: acc)

/-- Python `s.split(sep)` (one-character separator). -/
def py_split (s : String) (sep : Char) : List String :=
  split_on_char_go sep s.data []

/-- Python `s.endswith(suffix)`. -/
def ends_with_chars (s suffix : String) : Bool :=
  (strip_prefix_chars suffix.data.reverse s.data.reverse).isSome

/-- Python `repo.removesuffix(".git")`. -/
def removesuffix_git (s : String) : String :=
  if ends_with_chars s ".git" then String.mk (s.data.take (s.data.length - 4))
  else s

/-- The branch captured by the optional `(?:/tree/([^/]+))?` group, given the
path segments following `owner/repo`. -/
def tree_branch : List String → String
  | "tree" :: b :: _ => if b = "" then "main" else b
  | _ => "main"

/-- The successful part of the regex match of `_parse_github_url`: strip the
scheme-and-host prefix, then read `([^/]+)/([^/]+)(?:/tree/([^/]+))?` from
the remaining path segments.  The branch defaults to `main` and `.git` is
removed from the repo. -/
def parse_repo_path (u : String) : Option (String × String × String) :=
  let rest? : Option (List Char) :=
    match strip_prefix_chars "https://github.com/".data u.data with
    | some r => some r
    | none => strip_prefix_chars "http://github.com/".data u.data
  match rest? with
  | none => none
  | some restChars =>
    match py_split (String.mk restChars) '/' with
    | owner :: repo :: tail =>
      if owner = "" ∨ repo = "" then none
      else some (owner, removesuffix_git repo, tree_branch tail)
    | _ => none

/-- Embedding of `_parse_github_url` (app/core/github_client.py): strip
trailing slashes, then match the URL regex; any failure raises `ValueError`
with the stripped URL in the message. -/
def _parse_github_url (url : String) : Except String (String × String × String) :=
  match parse_repo_path (pyRstripSlash url) with
  | some t => .ok t
  | none => .error ("Cannot parse GitHub URL: " ++ pyRstripSlash url)

/-- Embedding of `_extension_priority`: index of the first matching priority
extension, or the length of the table when none matches. -/
def ext_priority_go : List String → ℕ → String → ℕ
  | [], i, _ => i
  | e :: rest, i, p => if ends_with_chars p e then i
    else ext_priority_go rest (i + 1) p

def _extension_priority (path : String) : ℕ :=
  ext_priority_go PRIORITY_EXTENSIONS 0 path

/-- Embedding of `_should_skip`: any path component is a skipped directory. -/
def _should_skip (path : String) : Bool :=
  (py_split path '/').any (fun part => SKIP_DIRS.contains part)

/-- A blob entry of the GitHub tree listing. -/
structure Blob where
  path : String
deriving DecidableEq

/-- Environment abstracting the two network calls of the GitHub client:
`_fetch_tree_via_api` (either the blob list or `str(exc)` of the raised
exception) and the raw `resp.text` of `_fetch_file_content` (`none` models a
raised exception for that file). -/
structure GitEnv where
  tree : Except String (List Blob)
  file : String → Option String

/-- The line-cap truncation inside `_fetch_file_content` (lines are split on
newline; Python uses `splitlines`, which differs only on trailing newlines
and exotic separators). -/
def truncate_lines (text : String) : String :=
  let lines := py_split text '\n'
  if lines.length > MAX_FILE_LINES then
    String.intercalate "\n"
      (lines.take MAX_FILE_LINES ++ ["[truncated after 200 lines]"])
  else String.intercalate "\n" lines

/-- Embedding of `_fetch_file_content`: the fetched text line-capped, or
`none` when the fetch raised. -/
def _fetch_file_content (env : GitEnv) (path : String) : Option String :=
  (env.file path).map truncate_lines

/-- The per-blob loop of `fetch_repo_summary`: a failed file fetch skips the
file (`continue`); a chunk that would exceed the character budget appends the
truncation marker and stops. -/
def summary_go (env : GitEnv) : List Blob → List String → ℕ → List String
  | [], sections, _ => sections
  | b :: rest, sections, total_chars =>
    match _fetch_file_content env b.path with
    | none => summary_go env rest sections total_chars
    | some content =>
      let chunk := "\n## " ++ b.path ++ "\n```\n" ++ content ++ "\n```\n"
      if total_chars + chunk.length > MAX_TOTAL_CHARS then
        sections ++ ["\n[Repository summary truncated at 80000 characters]"]
      else summary_go env rest (sections ++ [chunk]) (total_chars + chunk.length)

/-- Embedding of `fetch_repo_summary` (app/core/github_client.py): returns
`(summary, warning)`; an unparsable URL or failed tree listing degrades to an
empty summary with a warning, and is the only way the summary is empty with
a warning.  The function is total: no input makes it raise. -/
def fetch_repo_summary (github_url token : String) (env : GitEnv) :
    String × String :=
  match _parse_github_url github_url with
  | .error e => ("", e)
  | .ok (owner, repo, branch) =>
    match env.tree with
    | .error e => ("", "GitHub fetch failed: " ++ e)
    | .ok blobs =>
      let kept := blobs.filter (fun b => ¬ _should_skip b.path)
      let sorted := kept.mergeSort
        (fun a b => _extension_priority a.path ≤ _extension_priority b.path)
      let header := "# Repository: " ++ owner ++ "/" ++ repo
        ++ " (branch: " ++ branch ++ ")\n"
      let sections := summary_go env sorted [header] header.length
      (String.join sections, "")

-- ── app/core/estimator.py: job store ───────────────────────────────────────

/-- A Python exception escaping a route handler. -/
inductive PyExc where
  | attributeError (attr : String)
deriving DecidableEq

/-- Outcome of an HTTP route: an `HTTPException(status, detail)` or an
unhandled Python exception. -/
inductive RouteErr where
  | http (status : ℕ) (detail : String)
  | exc (e : PyExc)
deriving DecidableEq

/-- One entry of a job's chat transcript. -/
structure ChatMsg where
  role : String
  content : String
deriving DecidableEq

/-- The `Job` dataclass (app/core/estimator.py) together with the attributes
that routes.py creates dynamically through `update_job`'s `setattr`.  The
first five fields are the declared dataclass fields and always exist.  The
remaining fields are dynamic: `none` means the attribute was never created,
so reading it raises `AttributeError`; `some v` means it exists with value
`v` (which may itself be Python `None`, hence the nested `Option`). -/
structure Job where
  job_id : String
  status : String := "pending"
  progress_message : String := "Waiting to start…"
  report_path : Option String := none
  error_detail : Option String := none
  estimate_result : Option (Option EstimateResult) := none
  financials : Option (Option FinancialSummary) := none
  chat_history : Option (List ChatMsg) := none
  requirements_md : Option String := none
  model_md : Option String := none
  save_id : Option (Option String) := none
  repo_summary : Option (Option String) := none
deriving DecidableEq

/-- The module-level `_JOBS` dictionary. -/
abbrev JobStore := List (String × Job)

/-- Files on disk, path to content. -/
abbrev FileSystem := List (String × String)

def fs_write (fs : FileSystem) (path content : String) : FileSystem :=
  dict_set fs path content

def fs_read (fs : FileSystem) (path : String) : Option String :=
  List.lookup path fs

/-- Embedding of `create_job`: a fresh `Job` (all dataclass defaults, no
dynamic attributes) stored under the generated id, which is passed in as a
parameter in place of `uuid.uuid4()`. -/
def create_job (job_id : String) (store : JobStore) : Job × JobStore :=
  let job : Job := { job_id := job_id }
  (job, dict_set store job_id job)

/-- Embedding of `get_job`. -/
def get_job (store : JobStore) (job_id : String) : Option Job :=
  List.lookup job_id store

/-- Embedding of `update_job`: each call site's keyword arguments become one
record-update function; a missing job id is a no-op. -/
def update_job (store : JobStore) (job_id : String) (f : Job → Job) : JobStore :=
  store.map (fun p => cond (p.1 == job_id) (p.1, f p.2) p)

-- ── app/core/estimator.py: run_estimation ──────────────────────────────────

/-- Environment of one estimation run: the GitHub network responses, the
outcome of `claude_client.call_claude` as a function of its prompt inputs
(`.error` carries `str(exc)` of the raised exception), and the outcome of
`report_generator.generate_report` as a function of estimate, financials and
github warning: `.ok` is the rendered text it writes to `report_path` (the
Jinja template file is not part of the sources, so the text is abstract),
and `.error` carries `str(exc)` of an exception raised while loading or
rendering the template or writing the file — the render step can raise, and
`run_estimation`'s handler must catch it. -/
structure RunEnv where
  git : GitEnv
  claude : String → String → Option String → Except String EstimateResult
  render : EstimateResult → FinancialSummary → String → Except String String

/-- Embedding of `run_estimation` (app/core/estimator.py).  The `try` body
sequences GitHub fetch, Claude call, `_compute_financials`, and report
generation; the `except Exception` handler marks the job `error` with
`str(exc)`.  The fetch never raises (`fetch_repo_summary` is total, see the
C8 development) and the rollup is pure arithmetic, so the steps that can
raise are the Claude call and the report generation, both of which feed the
handler here.  Note the final `done` update stores only `status`,
`progress_message` and `report_path`: the computed `EstimateResult` and
`FinancialSummary` are never written to the job, and no `chat_history`,
`requirements_md`, `model_md` or `repo_summary` attribute is created. -/
def run_estimation (store : JobStore) (fs : FileSystem) (job_id : String)
    (requirements_md model_md github_url github_token : String)
    (manday_cost : ℚ) (currency : String) (reports_dir : String)
    (api_key : String) (env : RunEnv) : JobStore × FileSystem :=
  let store := update_job store job_id (fun j =>
    { j with status := "running", progress_message := "Starting estimation…" })
  let (store, repo_summary, repo_warning) :
      JobStore × Option String × String :=
    if github_url ≠ "" then
      let store := update_job store job_id (fun j =>
        { j with progress_message := "Fetching GitHub repository…" })
      let (s, w) := fetch_repo_summary github_url github_token env.git
      (store, some s, w)
    else (store, none, "")
  let store := update_job store job_id (fun j =>
    { j with progress_message := "Calling Claude API — this may take 30–90 seconds…" })
  let repo_summary_or_none : Option String :=
    match repo_summary with
    | none => none
    | some s => if s = "" then none else some s
  match env.claude model_md requirements_md repo_summary_or_none with
  | .error exc =>
    (update_job store job_id (fun j =>
      { j with
          status := "error"
          error_detail := some exc
          progress_message := "Estimation failed." }), fs)
  | .ok result =>
    let store := update_job store job_id (fun j =>
      { j with progress_message := "Computing financials…" })
    let financials := _compute_financials result manday_cost currency
    let store := update_job store job_id (fun j =>
      { j with progress_message := "Generating report…" })
    let report_path := reports_dir ++ "/" ++ job_id ++ ".md"
    match env.render result financials repo_warning with
    | .error exc =>
      (update_job store job_id (fun j =>
        { j with
            status := "error"
            error_detail := some exc
            progress_message := "Estimation failed." }), fs)
    | .ok rendered =>
      let fs := fs_write fs report_path rendered
      let store := update_job store job_id (fun j =>
        { j with
            status := "done"
            progress_message := "Report ready."
            report_path := some report_path })
      (store, fs)

-- ── app/core/saves.py ──────────────────────────────────────────────────────

/-- One save record: the JSON file written under `saves/{save_id}.json`.
The `estimate_data` / `financials_data` dicts are modelled as the typed
records they are dumped from. -/
structure SaveData where
  save_id : String
  name : String
  status : String
  created_at : String
  updated_at : String
  requirements_md : String
  model_md : String
  report_markdown : String
  estimate_data : EstimateResult
  financials_data : FinancialSummary
deriving DecidableEq

/-- The saves directory: file-per-record, keyed by save id; a key is present
iff the JSON file exists on disk. -/
abbrev SaveStore := List (String × SaveData)

/-- Embedding of `get_save`. -/
def get_save (s : SaveStore) (save_id : String) : Option SaveData :=
  List.lookup save_id s

/-- Embedding of `create_save`: writes a fresh draft record; `uuid.uuid4()`
and `datetime.now()` are passed in as `new_save_id` / `now`. -/
def create_save (s : SaveStore) (new_save_id now : String)
    (name requirements_md model_md report_markdown : String)
    (estimate_data : EstimateResult) (financials_data : FinancialSummary) :
    SaveData × SaveStore :=
  let data : SaveData :=
    { save_id := new_save_id
    , name := name
    , status := "draft"
    , created_at := now
    , updated_at := now
    , requirements_md := requirements_md
    , model_md := model_md
    , report_markdown := report_markdown
    , estimate_data := estimate_data
    , financials_data := financials_data }
  (data, dict_set s new_save_id data)

/-- Embedding of `finalize_save`: a missing id gives `None`; an already
final record is returned as stored without rewriting the file; a draft is
marked final with a fresh `updated_at` and rewritten. -/
def finalize_save (s : SaveStore) (save_id now : String) :
    Option SaveData × SaveStore :=
  match get_save s save_id with
  | none => (none, s)
  | some data =>
    if data.status = "final" then (some data, s)
    else
      let data' := { data with status := "final", updated_at := now }
      (some data', dict_set s save_id data')

/-- Embedding of `update_save`: `None` when missing or finalized, otherwise
the draft is rewritten with new report/estimate/financials and `updated_at`. -/
def update_save (s : SaveStore) (save_id now : String)
    (report_markdown : String) (estimate_data : EstimateResult)
    (financials_data : FinancialSummary) : Option SaveData × SaveStore :=
  match get_save s save_id with
  | none => (none, s)
  | some data =>
    if data.status = "final" then (none, s)
    else
      let data' := { data with
        report_markdown := report_markdown
        estimate_data := estimate_data
        financials_data := financials_data
        updated_at := now }
      (some data', dict_set s save_id data')

/-- Embedding of `delete_save`: deletes the file only for a non-final
existing record. -/
def delete_save (s : SaveStore) (save_id : String) : Bool × SaveStore :=
  match get_save s save_id with
  | none => (false, s)
  | some data =>
    if data.status = "final" then (false, s)
    else (true, dict_del s save_id)

-- ── app/api/routes.py ──────────────────────────────────────────────────────

/-- The settings fields the embedded routes read. -/
structure Settings where
  ANTHROPIC_API_KEY : String := ""
  REPORTS_DIR : String := "reports"

/-- Response of `POST /saves/{save_id}/open`. -/
structure OpenSaveResponse where
  job_id : String
  save_id : String
  name : String
deriving DecidableEq

/-- Response of `POST /estimate/{job_id}/chat`. -/
structure ChatResponse where
  reply : String
  estimate_updated : Bool
  report_markdown : Option String
deriving DecidableEq

/-- Embedding of the `DELETE /saves/{save_id}` route: a failed store delete
is disambiguated into 404 (missing) or 403 (finalized). -/
def delete_save_route (saves : SaveStore) (save_id : String) :
    Except RouteErr Bool × SaveStore :=
  let r := delete_save saves save_id
  if ¬ r.1 then
    match get_save r.2 save_id with
    | none => (.error (.http 404 "Save not found"), r.2)
    | some _ => (.error (.http 403 "Finalized estimates cannot be deleted"), r.2)
  else (.ok true, r.2)

/-- Embedding of the `POST /saves/{save_id}/open` route: loads a save into a
fresh job, writes the saved report markdown to the job's report file, and
marks the job `done` with the save's estimate, financials and inputs. -/
def open_save_route (saves : SaveStore) (store : JobStore) (fs : FileSystem)
    (settings : Settings) (new_job_id : String) (save_id : String) :
    Except RouteErr OpenSaveResponse × JobStore × FileSystem :=
  match get_save saves save_id with
  | none => (.error (.http 404 "Save not found"), store, fs)
  | some data =>
    let jn := create_job new_job_id store
    let report_path := settings.REPORTS_DIR ++ "/" ++ jn.1.job_id ++ ".md"
    let fs := fs_write fs report_path data.report_markdown
    let store := update_job jn.2 jn.1.job_id (fun j =>
      { j with
          status := "done"
          progress_message := "Report ready."
          report_path := some report_path
          estimate_result := some (some data.estimate_data)
          financials := some (some data.financials_data)
          requirements_md := some data.requirements_md
          model_md := some data.model_md
          save_id := some (some save_id) })
    (.ok { job_id := jn.1.job_id, save_id := save_id, name := data.name },
      store, fs)

/-- Embedding of the `GET /estimate/{job_id}/report` route: the served file
content, or the HTTP error. -/
def get_report_route (store : JobStore) (fs : FileSystem) (job_id : String) :
    Except RouteErr String :=
  match get_job store job_id with
  | none => .error (.http 404 "Job not found")
  | some job =>
    if job.status ≠ "done" then
      .error (.http 409 ("Report not ready (status: " ++ job.status ++ ")"))
    else
      match job.report_path with
      | none => .error (.http 500 "Report file missing")
      | some p =>
        match fs_read fs p with
        | none => .error (.http 500 "Report file missing")
        | some content => .ok content

/-- Embedding of the `POST /saves` route (`create_save` in routes.py).
Reading the dynamic attributes `estimate_result`, `requirements_md`,
`model_md` and `financials` of a job on which they were never created raises
`AttributeError` (surfacing as an unhandled exception).  Attribute reads are
ordered as the Python expressions evaluate. -/
def create_save_route (store : JobStore) (saves : SaveStore) (fs : FileSystem)
    (req_job_id req_name : String) (new_save_id now : String) :
    Except RouteErr SaveData × SaveStore :=
  match get_job store req_job_id with
  | none => (.error (.http 404 "Job not found"), saves)
  | some job =>
    if job.status ≠ "done" then (.error (.http 409 "Estimation not complete"), saves)
    else
      match job.estimate_result with
      | none => (.error (.exc (.attributeError "estimate_result")), saves)
      | some none => (.error (.http 409 "Estimation not complete"), saves)
      | some (some est) =>
        match job.report_path with
        | none => (.error (.http 500 "Report file missing"), saves)
        | some p =>
          match fs_read fs p with
          | none => (.error (.http 500 "Report file missing"), saves)
          | some report_md =>
            let name := if pyStrip req_name = "" then est.project_name
              else pyStrip req_name
            match job.requirements_md with
            | none => (.error (.exc (.attributeError "requirements_md")), saves)
            | some req_md =>
              match job.model_md with
              | none => (.error (.exc (.attributeError "model_md")), saves)
              | some mod_md =>
                match job.financials with
                | none => (.error (.exc (.attributeError "financials")), saves)
                | some none => (.error (.exc (.attributeError "model_dump")), saves)
                | some (some fin) =>
                  let r := create_save saves new_save_id now name req_md
                    mod_md report_md est fin
                  (.ok r.1, r.2)

/-- The keyword arguments `rerun_estimate` hands to
`background_tasks.add_task(estimator.run_estimation, ...)`.  The embedded
`run_estimation` above (from app/core/estimator.py) accepts no
`cached_repo_summary` parameter, so a task constructed with
`cached_repo_summary` raises `TypeError` when the thread pool invokes it. -/
structure RunArgs where
  job_id : String
  requirements_md : String
  model_md : String
  github_url : String
  github_token : String
  manday_cost : ℚ
  currency : String
  reports_dir : String
  api_key : String
  cached_repo_summary : Option String
deriving DecidableEq

/-- Embedding of the `POST /estimate/{job_id}/rerun` route.  The three
override parameters are `none` when not supplied.  Attribute reads
(`model_md`, `requirements_md`, `financials`, `repo_summary`) follow the
Python evaluation order; note `job.repo_summary` is read while evaluating
the `add_task` arguments, after the job has already been reset to
`pending`. -/
def rerun_route (store : JobStore) (settings : Settings) (job_id : String)
    (rerun_model rerun_requirements_file rerun_requirements_text : Option String) :
    Except RouteErr RunArgs × JobStore :=
  match get_job store job_id with
  | none => (.error (.http 404 "Job not found"), store)
  | some job =>
    if job.status ≠ "done" ∧ job.status ≠ "error" then
      (.error (.http 409 "Cannot re-run a job that is still running"), store)
    else
      let model_mdE : Except PyExc String :=
        match rerun_model with
        | some m => .ok m
        | none =>
          match job.model_md with
          | none => .error (.attributeError "model_md")
          | some m => .ok m
      match model_mdE with
      | .error e => (.error (.exc e), store)
      | .ok model_md =>
        let reqE : Except PyExc String :=
          match rerun_requirements_file with
          | some r => .ok r
          | none =>
            match rerun_requirements_text with
            | some t =>
              if pyStrip t ≠ "" then .ok (pyStrip t)
              else
                match job.requirements_md with
                | none => .error (.attributeError "requirements_md")
                | some r => .ok r
            | none =>
              match job.requirements_md with
              | none => .error (.attributeError "requirements_md")
              | some r => .ok r
        match reqE with
        | .error e => (.error (.exc e), store)
        | .ok new_requirements_md =>
          match job.financials with
          | none => (.error (.exc (.attributeError "financials")), store)
          | some finOpt =>
            let manday_cost : ℚ :=
              match finOpt with
              | some f => f.manday_cost
              | none => 500
            let currency : String :=
              match finOpt with
              | some f => f.currency
              | none => "EUR"
            let store := update_job store job_id (fun j =>
              { j with
                  status := "pending"
                  progress_message := "Waiting to start…"
                  error_detail := none
                  estimate_result := some none
                  financials := some none
                  model_md := some model_md
                  requirements_md := some new_requirements_md
                  chat_history := some [] })
            match job.repo_summary with
            | none => (.error (.exc (.attributeError "repo_summary")), store)
            | some rs =>
              (.ok { job_id := job_id
                   , requirements_md := new_requirements_md
                   , model_md := model_md
                   , github_url := ""
                   , github_token := ""
                   , manday_cost := manday_cost
                   , currency := currency
                   , reports_dir := settings.REPORTS_DIR
                   , api_key := settings.ANTHROPIC_API_KEY
                   , cached_repo_summary := rs }, store)

/-- Embedding of the `POST /estimate/{job_id}/chat` route.  `response` is
the model's reply (the content blocks `chat_with_claude` processes) and
`render` the Jinja report rendering.  The transcript append happens before
the replacement handling, as in the source. -/
def chat_route (store : JobStore) (fs : FileSystem) (settings : Settings)
    (job_id : String) (message : String) (response : List Block)
    (render : EstimateResult → FinancialSummary → String → String) :
    Except RouteErr ChatResponse × JobStore × FileSystem :=
  match get_job store job_id with
  | none => (.error (.http 404 "Job not found"), store, fs)
  | some job =>
    if job.status ≠ "done" then
      (.error (.http 409 "Estimation not complete yet"), store, fs)
    else
      match job.estimate_result with
      | none => (.error (.exc (.attributeError "estimate_result")), store, fs)
      | some none =>
        (.error (.http 500 "Estimate data not available for chat"), store, fs)
      | some (some est) =>
        match job.chat_history with
        | none => (.error (.exc (.attributeError "chat_history")), store, fs)
        | some history =>
          let rp := chat_with_claude response est
          let store := update_job store job_id (fun j =>
            { j with chat_history := some (history
                ++ [{ role := "user", content := message }
                   , { role := "assistant", content := rp.1 }]) })
          match rp.2 with
          | none =>
            (.ok { reply := rp.1, estimate_updated := false
                 , report_markdown := none }, store, fs)
          | some new_est =>
            match job.financials with
            | none => (.error (.exc (.attributeError "financials")), store, fs)
            | some none => (.error (.exc (.attributeError "manday_cost")), store, fs)
            | some (some fin) =>
              let new_financials :=
                _compute_financials new_est fin.manday_cost fin.currency
              let report_path := settings.REPORTS_DIR ++ "/" ++ job_id ++ ".md"
              let fs := fs_write fs report_path (render new_est new_financials "")
              let store := update_job store job_id (fun j =>
                { j with
                    estimate_result := some (some new_est)
                    financials := some (some new_financials) })
              (.ok { reply := rp.1, estimate_updated := true
                   , report_markdown := fs_read fs report_path }, store, fs)

-- ── Store lemmas ───────────────────────────────────────────────────────────

/-- Looking up a key just written into an association list gives the new
value. -/
theorem lookup_dict_set {β : Type} (l : List (String × β)) (k : String) (v : β) :
    List.lookup k (dict_set l k v) = some v := by
  induction l with
  | nil => simp [dict_set, List.lookup]
  | cons hd tl ih =>
    by_cases h : hd.1 = k
    · simpa [dict_set, h] using ih
    · simpa [dict_set, List.filter_cons, h, List.lookup,
        show (k == hd.1) = false from by simp [Ne.symm h]] using ih

/-- A deleted key is gone. -/
theorem lookup_dict_del {β : Type} (l : List (String × β)) (k : String) :
    List.lookup k (dict_del l k) = none := by
  induction l with
  | nil => simp [dict_del, List.lookup]
  | cons hd tl ih =>
    by_cases h : hd.1 = k
    · simpa [dict_del, h] using ih
    · simpa [dict_del, List.filter_cons, h, List.lookup,
        show (k == hd.1) = false from by simp [Ne.symm h]] using ih

/-- `update_job` maps the stored job through `f`. -/
theorem get_job_update_job (store : JobStore) (job_id : String) (f : Job → Job) :
    get_job (update_job store job_id f) job_id = (get_job store job_id).map f := by
  induction store with
  | nil => simp [get_job, update_job, List.lookup]
  | cons hd tl ih =>
    obtain ⟨a, b⟩ := hd
    by_cases h : a = job_id
    · subst h
      simp [get_job, update_job, List.lookup]
    · simpa [get_job, update_job, List.lookup,
        show (a == job_id) = false from by simp [h],
        show (job_id == a) = false from by simp [Ne.symm h]] using ih

-- ── Concrete scenario data ─────────────────────────────────────────────────

/-- A total report rendering producing a fixed string (used as the chat
route's `generate_report` rendering). -/
def render_ok : EstimateResult → FinancialSummary → String → String :=
  fun _ _ _ => "RENDERED"

/-- Run environment whose Claude call succeeds with `exEstimateBA` and whose
report rendering succeeds with a fixed string. -/
def envOK : RunEnv :=
  { git := { tree := .error "unreached", file := fun _ => none }
  , claude := fun _ _ _ => .ok exEstimateBA
  , render := fun _ _ _ => .ok "RENDERED" }

/-- A complete, successful estimation run of a freshly created job `j1`
with no GitHub URL: `(final job store, final filesystem)`. -/
def run_done : JobStore × FileSystem :=
  run_estimation (create_job "j1" []).2 [] "j1" "REQS" "MODEL"
    "" "" 500 "EUR" "reports" "key" envOK

/-- The financial summary of `exEstimateBA` at 500 EUR/day. -/
def exFinancials : FinancialSummary := _compute_financials exEstimateBA 500 "EUR"

/-- A concrete draft save record. -/
def exSave : SaveData :=
  { save_id := "s1", name := "Demo", status := "draft"
  , created_at := "2026-01-01T00:00:00+00:00"
  , updated_at := "2026-01-01T00:00:00+00:00"
  , requirements_md := "REQS", model_md := "MODEL"
  , report_markdown := "# Report", estimate_data := exEstimateBA
  , financials_data := exFinancials }

/-- The state after opening `exSave` into a fresh job `j2`. -/
def opened : Except RouteErr OpenSaveResponse × JobStore × FileSystem :=
  open_save_route [("s1", exSave)] [] [] {} "j2" "s1"

/-- `exEstimateBA` with the dedicated-BA satellite's mandays doubled (still
active); all other components unchanged. -/
def exEstimateBA2 : EstimateResult :=
  { exEstimateBA with satellites :=
    { exSatellitesBA with dedicated_business_analysis :=
        { active := true, justification := "stakeholder workshops"
        , fte_dedicated := 1/2, duration_months := 2, total_mandays := 20 } } }

-- ── Claim theorems ─────────────────────────────────────────────────────────

/-- C1: the claim states that `_compute_financials` returns a grand total
equal to core mandays plus the mandays of every active satellite, including
`dedicated_business_analysis`, and that each component's cost is its mandays
times the day rate rounded to two decimals.  The code omits the dedicated-BA
satellite: on an estimate whose BA satellite is active with 10 mandays at a
500/day rate, the rollup's `grand_mandays` is 25 while core plus all active
satellites (the repository's own test helper `grand_total_mandays`) is 35,
and `ba_cost` stays 0 instead of `round2 (10 * 500) = 5000`. -/
theorem C1_financial_rollup_omits_dedicated_ba :
    exEstimateBA.satellites.dedicated_business_analysis.active = true ∧
    exEstimateBA.satellites.dedicated_business_analysis.total_mandays = 10 ∧
    (_compute_financials exEstimateBA 500 "EUR").grand_mandays = 25 ∧
    grand_total_mandays exEstimateBA = 35 ∧
    (_compute_financials exEstimateBA 500 "EUR").grand_mandays ≠
      grand_total_mandays exEstimateBA ∧
    (_compute_financials exEstimateBA 500 "EUR").ba_cost = 0 ∧
    round2 (exEstimateBA.satellites.dedicated_business_analysis.total_mandays * 500)
      = 5000 := by
  have h1 : (_compute_financials exEstimateBA 500 "EUR").grand_mandays = 25 := by
    norm_num [_compute_financials, exEstimateBA, exCore, exSatellitesBA, sat_md,
      round2, roundHalfEven]
  have h2 : grand_total_mandays exEstimateBA = 35 := by
    norm_num [grand_total_mandays, exEstimateBA, exCore, exSatellitesBA, sat_md]
  refine ⟨rfl, rfl, h1, h2, by rw [h1, h2]; norm_num, ?_, ?_⟩
  · norm_num [_compute_financials, exEstimateBA, exCore, exSatellitesBA, sat_md]
  · norm_num [exEstimateBA, exSatellitesBA, round2, roundHalfEven]

/-- C2: the claim states that a job completed by `run_estimation` (status
`done`) holds the `EstimateResult`, `FinancialSummary` and chat transcript so
that save/chat/plan can read them.  In the code the final `done` update
stores none of these (the `Job` dataclass has no such fields and
`run_estimation` never sets the attributes), so on the successfully
completed job `j1` all three attributes are absent and the save route's read
of `job.estimate_result` raises `AttributeError`. -/
theorem C2_done_job_lacks_estimate_and_transcript :
    (get_job run_done.1 "j1").map (fun j =>
      (j.status, j.estimate_result.isSome, j.financials.isSome,
        j.chat_history.isSome)) = some ("done", false, false, false) ∧
    (create_save_route run_done.1 [] run_done.2 "j1" "My save" "s1" "now").1 =
      .error (.exc (.attributeError "estimate_result")) ∧
    (chat_route run_done.1 run_done.2 {} "j1" "hello" [] render_ok).1 =
      .error (.exc (.attributeError "estimate_result")) := by
  exact ⟨rfl, rfl, rfl⟩

/-- C3: the claim states that re-running a terminal job with no overrides
resets it to `pending`, reuses the stored requirements/model text and the
cached repository digest.  In the code no such attributes are ever stored by
the estimation path, so re-running the completed job `j1` raises
`AttributeError` on `job.model_md`; and even for a job opened from a save
(where `model_md`/`requirements_md`/`financials` exist), evaluating the
background-task arguments reads `job.repo_summary`, which no code path ever
sets, so the route raises `AttributeError` after resetting the job to
`pending` — no background run starts and nothing is reused. -/
theorem C3_rerun_raises_attribute_error :
    rerun_route run_done.1 {} "j1" none none none =
      (.error (.exc (.attributeError "model_md")), run_done.1) ∧
    (rerun_route opened.2.1 {} "j2" none none none).1 =
      .error (.exc (.attributeError "repo_summary")) ∧
    (get_job (rerun_route opened.2.1 {} "j2" none none none).2 "j2").map
      Job.status = some "pending" := by
  exact ⟨rfl, rfl, rfl⟩

/-- C4: opening an existing save creates a new job in `done` status whose
report file holds exactly the save's stored markdown, and fetching the
report of that job returns the saved markdown unchanged. -/
theorem C4_open_save_report_roundtrip (saves : SaveStore) (store : JobStore)
    (fs : FileSystem) (settings : Settings) (new_job_id save_id : String)
    (data : SaveData) (hd : get_save saves save_id = some data) :
    (open_save_route saves store fs settings new_job_id save_id).1 =
      .ok { job_id := new_job_id, save_id := save_id, name := data.name } ∧
    (get_job (open_save_route saves store fs settings new_job_id save_id).2.1
        new_job_id).map Job.status = some "done" ∧
    get_report_route (open_save_route saves store fs settings new_job_id save_id).2.1
        (open_save_route saves store fs settings new_job_id save_id).2.2 new_job_id =
      .ok data.report_markdown := by
  have hd' : List.lookup save_id saves = some data := hd
  have hjob : get_job
      (open_save_route saves store fs settings new_job_id save_id).2.1 new_job_id =
      some { job_id := new_job_id
           , status := "done"
           , progress_message := "Report ready."
           , report_path := some (settings.REPORTS_DIR ++ "/" ++ new_job_id ++ ".md")
           , error_detail := none
           , estimate_result := some (some data.estimate_data)
           , financials := some (some data.financials_data)
           , chat_history := none
           , requirements_md := some data.requirements_md
           , model_md := some data.model_md
           , save_id := some (some save_id)
           , repo_summary := none } := by
    simp [open_save_route, get_save, hd', create_job, get_job_update_job]
    have := lookup_dict_set store new_job_id ({ job_id := new_job_id } : Job)
    simp [get_job, this]
  refine ⟨by simp [open_save_route, get_save, hd', create_job], by simp [hjob], ?_⟩
  have hfs : fs_read
      (open_save_route saves store fs settings new_job_id save_id).2.2
      (settings.REPORTS_DIR ++ "/" ++ new_job_id ++ ".md") =
      some data.report_markdown := by
    simp [open_save_route, get_save, hd', create_job, fs_write]
    exact lookup_dict_set fs _ data.report_markdown
  simp [get_report_route, hjob, hfs]

/-- C4 witness: the round-trip on the concrete save `exSave`. -/
theorem C4_open_save_report_roundtrip_witness :
    (open_save_route [("s1", exSave)] [] [] {} "j2" "s1").1 =
      .ok { job_id := "j2", save_id := "s1", name := exSave.name } ∧
    (get_job (open_save_route [("s1", exSave)] [] [] {} "j2" "s1").2.1 "j2").map
      Job.status = some "done" ∧
    get_report_route (open_save_route [("s1", exSave)] [] [] {} "j2" "s1").2.1
        (open_save_route [("s1", exSave)] [] [] {} "j2" "s1").2.2 "j2" =
      .ok exSave.report_markdown :=
  C4_open_save_report_roundtrip [("s1", exSave)] [] [] {} "j2" "s1" exSave rfl

/-- A job store holding one completed job `j3` on which every dynamic
attribute exists (the state the chat route needs to get past its attribute
reads). -/
def chat_store : JobStore :=
  [("j3", { job_id := "j3", status := "done"
          , progress_message := "Report ready."
          , report_path := some "reports/j3.md"
          , error_detail := none
          , estimate_result := some (some exEstimateBA)
          , financials := some (some exFinancials)
          , chat_history := some []
          , requirements_md := some "REQS"
          , model_md := some "MODEL"
          , save_id := some none
          , repo_summary := none })]

/-- C5 counterexample: the claim says that when a replacement comes back
with no prose, the reply lists before/after mandays for the core and for
each satellite whose mandays or active flag changed.  Here the replacement
changes only the dedicated-BA satellite's mandays (10 → 20, active in both
versions), yet the chat reply is the fixed fallback sentence — no
before/after listing — because `_diff_estimates` never compares
`dedicated_business_analysis`. -/
theorem C5_chat_diff_counterexample :
    exEstimateBA.satellites.dedicated_business_analysis.active = true ∧
    exEstimateBA2.satellites.dedicated_business_analysis.active = true ∧
    exEstimateBA.satellites.dedicated_business_analysis.total_mandays ≠
      exEstimateBA2.satellites.dedicated_business_analysis.total_mandays ∧
    (chat_route chat_store [] {} "j3" "double the BA effort"
        [Block.tool_use (.ok exEstimateBA2)] render_ok).1 =
      .ok { reply := "I\x27ve applied the requested changes to the estimate."
          , estimate_updated := true
          , report_markdown := some "RENDERED" } := by
  refine ⟨rfl, rfl, ?_, ?_⟩
  · norm_num [exEstimateBA, exEstimateBA2, exSatellitesBA]
  · norm_num [chat_route, chat_store, get_job, chat_with_claude, _diff_estimates,
      diff_sat_lines, exEstimateBA, exEstimateBA2, exCore, exSatellitesBA]
    rfl

/-- C5 amended: against a completed job whose `estimate_result`,
`chat_history` and `financials` attributes exist, a replacement estimate in
the response makes the route recompute the rollup and report from the
replacement and update the job in place; a replacement with no prose yields
the locally synthesized `_diff_estimates` summary; and that summary never
depends on the `dedicated_business_analysis` satellite. -/
theorem C5_chat_replacement_amended :
    (∀ (store : JobStore) (fs : FileSystem) (settings : Settings)
        (job_id message : String) (job : Job) (est : EstimateResult)
        (history : List ChatMsg) (fin : FinancialSummary)
        (response : List Block) (new_est : EstimateResult)
        (render : EstimateResult → FinancialSummary → String → String),
      get_job store job_id = some job →
      job.status = "done" →
      job.estimate_result = some (some est) →
      job.chat_history = some history →
      job.financials = some (some fin) →
      (chat_with_claude response est).2 = some new_est →
      (chat_route store fs settings job_id message response render).1 =
        .ok { reply := (chat_with_claude response est).1
            , estimate_updated := true
            , report_markdown := some (render new_est
                (_compute_financials new_est fin.manday_cost fin.currency) "") } ∧
      (get_job (chat_route store fs settings job_id message response render).2.1
          job_id).map (fun j => (j.estimate_result, j.financials)) =
        some (some (some new_est),
          some (some (_compute_financials new_est fin.manday_cost fin.currency))) ∧
      fs_read (chat_route store fs settings job_id message response render).2.2
          (settings.REPORTS_DIR ++ "/" ++ job_id ++ ".md") =
        some (render new_est
          (_compute_financials new_est fin.manday_cost fin.currency) "")) ∧
    (∀ (est new_est : EstimateResult),
      chat_with_claude [Block.tool_use (.ok new_est)] est =
        (pyStrip (_diff_estimates est new_est), some new_est)) ∧
    (∀ (old new : EstimateResult) (ba : DedicatedBusinessAnalysis),
      _diff_estimates old
        { new with satellites :=
            { new.satellites with dedicated_business_analysis := ba } } =
      _diff_estimates old new) := by
  refine ⟨?_, fun est new_est => rfl, fun old new ba => rfl⟩
  intro store fs settings job_id message job est history fin response new_est
    render hj h1 h2 h3 h4 h5
  refine ⟨?_, ?_, ?_⟩
  · simp [chat_route, hj, h1, h2, h3, h4, h5]
    exact lookup_dict_set fs _ _
  · simp [chat_route, hj, h1, h2, h3, h4, h5, get_job_update_job]
  · simp [chat_route, hj, h1, h2, h3, h4, h5]
    exact lookup_dict_set fs _ _

/-- C5 amended witness: the route behavior at the concrete job `j3` with a
replacement that doubles the dedicated-BA mandays. -/
theorem C5_chat_replacement_amended_witness :
    (chat_route chat_store [] {} "j3" "double the BA effort"
        [Block.tool_use (.ok exEstimateBA2)] render_ok).1 =
      .ok { reply := (chat_with_claude
              [Block.tool_use (.ok exEstimateBA2)] exEstimateBA).1
          , estimate_updated := true
          , report_markdown := some (render_ok exEstimateBA2
              (_compute_financials exEstimateBA2 exFinancials.manday_cost
                exFinancials.currency) "") } :=
  (C5_chat_replacement_amended.1 chat_store [] {} "j3" "double the BA effort"
    _ exEstimateBA [] exFinancials [Block.tool_use (.ok exEstimateBA2)]
    exEstimateBA2 render_ok rfl rfl rfl rfl rfl rfl).1

/-- C6: for any sequence of per-attempt outcomes in which every one of the 3
attempts fails, `call_claude` raises the terminal `RuntimeError` (it never
returns a result), sleeping `2 ^ 1 = 2` seconds between attempts 1 and 2 and
`2 ^ 2 = 4` seconds between attempts 2 and 3; and for any outcomes at all it
never performs more than 2 back-off sleeps, i.e. never retries beyond the
fixed attempt count. -/
theorem C6_call_claude_retry_backoff :
    (∀ (outcomes : ClaudeOutcomes) (errs : ℕ → String),
      (∀ k, 1 ≤ k → k ≤ 3 → outcomes k = .error (errs k)) →
      call_claude outcomes 3 =
        (.error ("Claude API failed after 3 attempts: " ++ errs 3), [2, 4])) ∧
    (∀ outcomes : ClaudeOutcomes, (call_claude outcomes 3).2.length ≤ 2) := by
  constructor
  · intro outcomes errs h
    have h1 := h 1 (by norm_num) (by norm_num)
    have h2 := h 2 (by norm_num) (by norm_num)
    have h3 := h 3 (by norm_num) (by norm_num)
    simp [call_claude, call_claude_go, List.range', h1, h2, h3]
    rfl
  · intro o
    cases h1 : o 1 with
    | ok r => simp [call_claude, call_claude_go, List.range', h1]
    | error e1 =>
      cases h2 : o 2 with
      | ok r => simp [call_claude, call_claude_go, List.range', h1, h2]
      | error e2 =>
        cases h3 : o 3 with
        | ok r => simp [call_claude, call_claude_go, List.range', h1, h2, h3]
        | error e3 => simp [call_claude, call_claude_go, List.range', h1, h2, h3]

/-- C6 witness: all three attempts failing with "boom". -/
theorem C6_call_claude_retry_backoff_witness :
    call_claude (fun _ => .error "boom") 3 =
      (.error ("Claude API failed after 3 attempts: " ++ "boom"), [2, 4]) :=
  C6_call_claude_retry_backoff.1 (fun _ => .error "boom") (fun _ => "boom")
    (fun k h1 h3 => rfl)

/-- C7: `run_estimation` is total (the embedded runner returns a store and
filesystem for every input, mirroring the blanket `except Exception`), and
both of its fallible steps feed the handler: if the Claude call raises with
text `e`, or the Claude call succeeds and the report generation raises with
text `e`, the job ends in status `error` with `error_detail` exactly `e` and
progress "Estimation failed."; if both succeed, the job ends `done` with its
report path set and the rendered report on disk.  (The repository fetch is
total — see the C8 theorems — and the rollup is pure arithmetic, so these
are all the raising steps of the `try` body.) -/
theorem C7_run_estimation_error_handling (store : JobStore) (fs : FileSystem)
    (job_id requirements_md model_md github_url github_token : String)
    (manday_cost : ℚ) (currency reports_dir api_key : String)
    (env : RunEnv) (j : Job) (hj : get_job store job_id = some j) :
    (∀ e, (∀ m r s, env.claude m r s = .error e) →
      (get_job (run_estimation store fs job_id requirements_md model_md
          github_url github_token manday_cost currency reports_dir api_key
          env).1 job_id).map
        (fun j => (j.status, j.error_detail, j.progress_message)) =
        some ("error", some e, "Estimation failed.")) ∧
    (∀ result e, (∀ m r s, env.claude m r s = .ok result) →
      (∀ res fin w, env.render res fin w = .error e) →
      (get_job (run_estimation store fs job_id requirements_md model_md
          github_url github_token manday_cost currency reports_dir api_key
          env).1 job_id).map
        (fun j => (j.status, j.error_detail, j.progress_message)) =
        some ("error", some e, "Estimation failed.")) ∧
    (∀ result rendered, (∀ m r s, env.claude m r s = .ok result) →
      (∀ res fin w, env.render res fin w = .ok rendered) →
      (get_job (run_estimation store fs job_id requirements_md model_md
          github_url github_token manday_cost currency reports_dir api_key
          env).1 job_id).map
        (fun j => (j.status, j.report_path)) =
        some ("done", some (reports_dir ++ "/" ++ job_id ++ ".md")) ∧
      fs_read (run_estimation store fs job_id requirements_md model_md
          github_url github_token manday_cost currency reports_dir api_key
          env).2 (reports_dir ++ "/" ++ job_id ++ ".md") = some rendered) := by
  refine ⟨?_, ?_, ?_⟩
  · intro e he
    by_cases hg : github_url = ""
    · simp [run_estimation, hg, he, get_job_update_job, hj]
    · simp [run_estimation, hg, he, get_job_update_job, hj]
  · intro result e hr hrender
    by_cases hg : github_url = ""
    · simp [run_estimation, hg, hr, hrender, get_job_update_job, hj]
    · simp [run_estimation, hg, hr, hrender, get_job_update_job, hj]
  · intro result rendered hr hrender
    by_cases hg : github_url = ""
    · constructor
      · simp [run_estimation, hg, hr, hrender, get_job_update_job, hj]
      · simp [run_estimation, hg, hr, hrender]
        exact lookup_dict_set fs _ _
    · constructor
      · simp [run_estimation, hg, hr, hrender, get_job_update_job, hj]
      · simp [run_estimation, hg, hr, hrender]
        exact lookup_dict_set fs _ _

/-- Run environment whose Claude call always raises. -/
def env_bad : RunEnv :=
  { git := { tree := .error "unreached", file := fun _ => none }
  , claude := fun _ _ _ => .error "API down"
  , render := fun _ _ _ => .ok "RENDERED" }

/-- Run environment whose Claude call succeeds but whose report generation
always raises (e.g. a template or disk-write failure). -/
def env_render_bad : RunEnv :=
  { git := { tree := .error "unreached", file := fun _ => none }
  , claude := fun _ _ _ => .ok exEstimateBA
  , render := fun _ _ _ => .error "disk full" }

/-- C7 witness: a failing Claude call, and separately a failing report
generation after a successful Claude call, each mark the concrete job `j1`
as `error` with the exception text retained verbatim. -/
theorem C7_run_estimation_error_handling_witness :
    (get_job (run_estimation (create_job "j1" []).2 [] "j1" "REQS" "MODEL"
        "" "" 500 "EUR" "reports" "key" env_bad).1 "j1").map
      (fun j => (j.status, j.error_detail, j.progress_message)) =
      some ("error", some "API down", "Estimation failed.") ∧
    (get_job (run_estimation (create_job "j1" []).2 [] "j1" "REQS" "MODEL"
        "" "" 500 "EUR" "reports" "key" env_render_bad).1 "j1").map
      (fun j => (j.status, j.error_detail, j.progress_message)) =
      some ("error", some "disk full", "Estimation failed.") :=
  ⟨(C7_run_estimation_error_handling (create_job "j1" []).2 [] "j1" "REQS"
      "MODEL" "" "" 500 "EUR" "reports" "key" env_bad
      { job_id := "j1" } rfl).1 "API down" (fun m r s => rfl),
   (C7_run_estimation_error_handling (create_job "j1" []).2 [] "j1" "REQS"
      "MODEL" "" "" 500 "EUR" "reports" "key" env_render_bad
      { job_id := "j1" } rfl).2.1 exEstimateBA "disk full" (fun m r s => rfl)
      (fun res fin w => rfl)⟩

/-- C8: `fetch_repo_summary` is total (the embedding returns a pair for
every URL, token and network outcome).  The only parse failure is the
`Cannot parse GitHub URL` message, any parse failure yields an empty digest
with that non-empty warning, a failed tree listing yields an empty digest
with the non-empty `GitHub fetch failed` warning, and a failed individual
file fetch merely skips that file in the summary loop. -/
theorem C8_fetch_repo_summary_degrades :
    (∀ url e, _parse_github_url url = .error e →
      e = "Cannot parse GitHub URL: " ++ pyRstripSlash url) ∧
    (∀ s, ("Cannot parse GitHub URL: " ++ s) ≠ "" ∧
      ("GitHub fetch failed: " ++ s) ≠ "") ∧
    (∀ url token env e, _parse_github_url url = .error e →
      fetch_repo_summary url token env = ("", e)) ∧
    (∀ url token env owner repo branch e,
      _parse_github_url url = .ok (owner, repo, branch) →
      env.tree = .error e →
      fetch_repo_summary url token env = ("", "GitHub fetch failed: " ++ e)) ∧
    (∀ env b rest sections total_chars,
      _fetch_file_content env b.path = none →
      summary_go env (b :: rest) sections total_chars =
        summary_go env rest sections total_chars) := by
  refine ⟨?_, ?_, ?_, ?_, ?_⟩
  · intro url e h
    unfold _parse_github_url at h
    cases hp : parse_repo_path (pyRstripSlash url) with
    | some t => rw [hp] at h; cases h
    | none => rw [hp] at h; exact (Except.error.inj h).symm
  · intro s
    refine ⟨fun h => ?_, fun h => ?_⟩
    · have := congrArg String.data h
      simp [String.data_append] at this
    · have := congrArg String.data h
      simp [String.data_append] at this
  · intro url token env e h
    unfold fetch_repo_summary
    rw [h]
  · intro url token env owner repo branch e hp ht
    unfold fetch_repo_summary
    rw [hp, ht]
  · intro env b rest sections total_chars h
    simp only [summary_go, h]

/-- C8 witness: an unparsable URL degrades to an empty digest plus warning;
a parsable URL with a failing tree listing degrades likewise; a blob whose
file fetch fails is skipped. -/
theorem C8_fetch_repo_summary_degrades_witness :
    fetch_repo_summary "not-a-url" ""
        { tree := .error "403", file := fun _ => none } =
      ("", "Cannot parse GitHub URL: not-a-url") ∧
    fetch_repo_summary "https://github.com/acme/widgets" "tok"
        { tree := .error "rate limited", file := fun _ => none } =
      ("", "GitHub fetch failed: rate limited") ∧
    summary_go { tree := .error "x", file := fun _ => none }
        [{ path := "README.md" }] ["H"] 1 = ["H"] :=
  ⟨C8_fetch_repo_summary_degrades.2.2.1 "not-a-url" ""
      { tree := .error "403", file := fun _ => none }
      "Cannot parse GitHub URL: not-a-url" rfl,
   C8_fetch_repo_summary_degrades.2.2.2.1 "https://github.com/acme/widgets"
      "tok" { tree := .error "rate limited", file := fun _ => none }
      "acme" "widgets" "main" "rate limited" rfl rfl,
   C8_fetch_repo_summary_degrades.2.2.2.2
      { tree := .error "x", file := fun _ => none }
      { path := "README.md" } [] ["H"] 1 rfl⟩

/-- C9: deleting a finalized save is rejected with HTTP 403 and leaves the
saves directory unchanged; deleting a draft succeeds and removes exactly its
JSON file; deleting a missing id reports HTTP 404. -/
theorem C9_delete_save_policy (saves : SaveStore) (save_id : String) :
    (∀ d, get_save saves save_id = some d → d.status = "final" →
        delete_save saves save_id = (false, saves) ∧
        delete_save_route saves save_id =
          (.error (.http 403 "Finalized estimates cannot be deleted"), saves)) ∧
    (∀ d, get_save saves save_id = some d → d.status = "draft" →
        delete_save saves save_id = (true, dict_del saves save_id) ∧
        get_save (dict_del saves save_id) save_id = none ∧
        delete_save_route saves save_id = (.ok true, dict_del saves save_id)) ∧
    (get_save saves save_id = none →
        delete_save_route saves save_id =
          (.error (.http 404 "Save not found"), saves)) := by
  refine ⟨fun d hd hs => ?_, fun d hd hs => ?_, fun hn => ?_⟩
  · have hd' : List.lookup save_id saves = some d := hd
    constructor
    · simp [delete_save, get_save, hd', hs]
    · simp [delete_save_route, delete_save, get_save, hd', hs]
  · have hd' : List.lookup save_id saves = some d := hd
    have hne : d.status ≠ "final" := by rw [hs]; decide
    refine ⟨by simp [delete_save, get_save, hd', hne],
      lookup_dict_del saves save_id, ?_⟩
    simp [delete_save_route, delete_save, get_save, hd', hne]
  · have hn' : List.lookup save_id saves = none := hn
    simp [delete_save_route, delete_save, get_save, hn']

/-- A finalized version of the concrete save, stored as `s2`. -/
def exSaveFinal : SaveData := { exSave with save_id := "s2", status := "final" }

/-- C9 witness: the three cases on concrete one-element saves directories. -/
theorem C9_delete_save_policy_witness :
    (delete_save [("s2", exSaveFinal)] "s2" = (false, [("s2", exSaveFinal)]) ∧
      delete_save_route [("s2", exSaveFinal)] "s2" =
        (.error (.http 403 "Finalized estimates cannot be deleted"),
          [("s2", exSaveFinal)])) ∧
    (delete_save [("s1", exSave)] "s1" =
        (true, dict_del [("s1", exSave)] "s1") ∧
      get_save (dict_del [("s1", exSave)] "s1") "s1" = none ∧
      delete_save_route [("s1", exSave)] "s1" =
        (.ok true, dict_del [("s1", exSave)] "s1")) ∧
    delete_save_route [] "missing" =
      (.error (.http 404 "Save not found"), []) :=
  ⟨(C9_delete_save_policy [("s2", exSaveFinal)] "s2").1 exSaveFinal rfl rfl,
   (C9_delete_save_policy [("s1", exSave)] "s1").2.1 exSave rfl rfl,
   (C9_delete_save_policy [] "missing").2.2 rfl⟩

/-- C10: finalizing a non-final save marks it `final` with a fresh
`updated_at` and rewrites its file; finalizing it again at any later time
returns the stored record unchanged and leaves the store (the file) exactly
as it was, `updated_at` included; `update_save` on the finalized record
returns `none` and leaves the store unchanged. -/
theorem C10_finalize_idempotent_update_rejected (saves : SaveStore)
    (save_id now1 now2 : String) (d : SaveData)
    (report_markdown : String) (estimate_data : EstimateResult)
    (financials_data : FinancialSummary)
    (hd : get_save saves save_id = some d) (hnf : d.status ≠ "final") :
    finalize_save saves save_id now1 =
      (some { d with status := "final", updated_at := now1 },
        dict_set saves save_id { d with status := "final", updated_at := now1 }) ∧
    finalize_save
        (dict_set saves save_id { d with status := "final", updated_at := now1 })
        save_id now2 =
      (some { d with status := "final", updated_at := now1 },
        dict_set saves save_id { d with status := "final", updated_at := now1 }) ∧
    update_save
        (dict_set saves save_id { d with status := "final", updated_at := now1 })
        save_id now2 report_markdown estimate_data financials_data =
      (none, dict_set saves save_id { d with status := "final", updated_at := now1 }) := by
  have hd' : List.lookup save_id saves = some d := hd
  have hl := lookup_dict_set saves save_id
    { d with status := "final", updated_at := now1 }
  refine ⟨by simp [finalize_save, get_save, hd', hnf], ?_, ?_⟩
  · simp [finalize_save, get_save, hl]
  · simp [update_save, get_save, hl]

/-- C10 witness: finalize twice and attempt an update on the concrete draft
save `s1`. -/
theorem C10_finalize_idempotent_update_rejected_witness :
    finalize_save [("s1", exSave)] "s1" "T1" =
      (some { exSave with status := "final", updated_at := "T1" },
        dict_set [("s1", exSave)] "s1"
          { exSave with status := "final", updated_at := "T1" }) ∧
    finalize_save
        (dict_set [("s1", exSave)] "s1"
          { exSave with status := "final", updated_at := "T1" }) "s1" "T2" =
      (some { exSave with status := "final", updated_at := "T1" },
        dict_set [("s1", exSave)] "s1"
          { exSave with status := "final", updated_at := "T1" }) ∧
    update_save
        (dict_set [("s1", exSave)] "s1"
          { exSave with status := "final", updated_at := "T1" }) "s1" "T2"
        "new report" exEstimateBA2 exFinancials =
      (none, dict_set [("s1", exSave)] "s1"
        { exSave with status := "final", updated_at := "T1" }) :=
  C10_finalize_idempotent_update_rejected [("s1", exSave)] "s1" "T1" "T2"
    exSave "new report" exEstimateBA2 exFinancials rfl (by decide)
